import Mathlib

/-!
Verification of the tracer-daemon core against its specification.

The Rust sources are shallowly embedded:
  - src/tracer_client.rs          : TracerClient and submit_batched_data
  - src/daemon_communication/server.rs : the IPC command server loop
  - src/load_ebpf/mod.rs          : the per-CPU kernel-record decode
Instants and durations are modelled as natural numbers of milliseconds
(Rust's Instant subtraction of a past instant, like Nat subtraction,
never goes below zero).  Event records are an arbitrary type parameter,
since none of the verified properties depend on their shape.  External
collaborators (the metrics collector, the outbound HTTP client, the
serde deserializer for short-lived-process records) are modelled as
inputs supplying their outcome, since their code is outside the core.
-/

/-- Configuration structure produced by the configuration loader
(fields as listed in the on-disk layout and the CLI setup command). -/
structure ConfigFile where
  api_key : String
  process_polling_interval_ms : Nat
  batch_submission_interval_ms : Nat
  service_url : String
  targets : List String
deriving Repr, DecidableEq

/-- State of the TracerClient from src/tracer_client.rs.  The system,
metrics collector, process watcher and http client hold no state that
the verified properties depend on, so only the submission-relevant
fields are carried: api key, service url, the last-submission instant
and the submission-check interval, plus the event log. -/
structure TracerState (α : Type) where
  api_key : String
  service_url : String
  last_sent : Nat
  interval : Nat
  logs : List α
deriving Repr, DecidableEq

/-- TracerClient::new from src/tracer_client.rs lines 26-43.  The
construction instant is passed explicitly (the code calls
Instant::now()).  Note the source initializes the interval field from
config.process_polling_interval_ms, and the event log starts empty. -/
def TracerClient.new (α : Type) (config : ConfigFile) (now : Nat) : TracerState α :=
  { api_key := config.api_key
    service_url := config.service_url
    last_sent := now
    interval := config.process_polling_interval_ms
    logs := [] }

/-- Outcome of the external metrics collector
(SystemMetricsCollector::collect_metrics appends events to the log and
may fail; on failure it may already have appended some events). -/
inductive MetricsResult (α : Type) where
  | ok (events : List α)
  | err (msg : String) (partialEvents : List α)
deriving Repr, DecidableEq

/-- Result of one call of TracerClient::submit_batched_data: the
returned Result, the post-call client state, whether the metrics
collector was invoked, and the payload handed to the outbound send
(none when no send was attempted). -/
structure SubmitOutcome (α : Type) where
  result : Except String Unit
  state : TracerState α
  collected : Bool
  sent : Option (List α)

/-- TracerClient::submit_batched_data from src/tracer_client.rs lines
45-65.  If the elapsed time since last_sent reaches the interval, it
collects metrics into the log (propagating a collector error), builds
the payload from the whole log, then sets last_sent to now and clears
the log, and only then performs the outbound send, returning the send's
result.  Otherwise it returns Ok without touching anything.  The
current instant, the collector outcome and the send outcome are inputs. -/
def submit_batched_data {α : Type} (s : TracerState α) (now : Nat)
    (metrics : MetricsResult α) (send : Except String Unit) : SubmitOutcome α :=
  if s.interval ≤ now - s.last_sent then
    match metrics with
    | .err e p => ⟨.error e, { s with logs := s.logs ++ p }, true, none⟩
    | .ok ms =>
      let payload := s.logs ++ ms
      ⟨send, { s with last_sent := now, logs := [] }, true, some payload⟩
  else
    ⟨.ok (), s, false, none⟩

/-- Number of outbound sends an outcome's sent field represents. -/
def sentCount {α : Type} (o : Option (List α)) : Nat :=
  match o with
  | none => 0
  | some _ => 1

/-- Concrete configuration used to exhibit the interval-field slip:
polling interval 200 ms, batch submission interval 5000 ms. -/
def cfg0 : ConfigFile :=
  { api_key := "key"
    process_polling_interval_ms := 200
    batch_submission_interval_ms := 5000
    service_url := "url"
    targets := [] }

/-- JSON values as produced by the serde parser (numbers restricted to
integers, which suffices for every property verified here). -/
inductive Json where
  | null
  | bool (b : Bool)
  | num (n : Int)
  | str (s : String)
  | arr (elems : List Json)
  | obj (fields : List (String × Json))

/-- Whether a JSON value is an object (serde Value::is_object). -/
def Json.isObject : Json → Bool
  | .obj _ => true
  | _ => false

/-- View of a JSON value as a string (serde Value::as_str). -/
def Json.asStr : Json → Option String
  | .str s => some s
  | _ => none

/-- View of a JSON value as an array (serde Value::as_array). -/
def Json.asArray : Json → Option (List Json)
  | .arr xs => some xs
  | _ => none

/-- Field lookup in a parsed JSON object (serde Map::get). -/
def jsonLookup : List (String × Json) → String → Option Json
  | [], _ => none
  | (k, v) :: rest, key => if k = key then some v else jsonLookup rest key

/-- What one accepted connection delivered: the read can fail (for
example on non-UTF8 bytes), the JSON parse can fail, or a JSON value is
obtained.  This is the boundary after stream.read_to_string and
serde_json::from_str in run_server. -/
inductive ConnInput where
  | readError (e : String)
  | parseError (e : String)
  | parsed (j : Json)

/-- Outcomes of the external collaborators a dispatched handler relies
on: the outbound send's result, whether serde deserialization of a
short-lived-process record succeeds, and the result of
fill_logs_with_short_lived_process. -/
structure HandlerEnv where
  sendResult : Except String Unit
  slpParses : Bool
  fillResult : Except String Unit

/-- Control-flow effect of one iteration of the accept loop. -/
inductive LoopCtl where
  | proceed
  | exitOk
  | exitErr (e : String)
  | panicked
deriving DecidableEq, Repr

/-- Everything one iteration of run_server's accept loop does that the
verified properties observe: the loop control effect, whether a
diagnostic was printed, whether the cancellation token was triggered,
and whether a handler future was dispatched and awaited. -/
structure Step where
  ctl : LoopCtl
  diag : Bool
  cancelled : Bool
  ranHandler : Bool
deriving DecidableEq, Repr

/-- Effect of awaiting a dispatched handler future in the accept loop:
run_server writes `if let Some(future) = result ... future.await?`, so
an Ok resolution continues the loop and an Err resolution propagates
out of run_server. -/
def sendStep (r : Except String Unit) : Step :=
  match r with
  | .ok _ => ⟨.proceed, false, false, true⟩
  | .error e => ⟨.exitErr e, false, false, true⟩

/-- One iteration of run_server's accept loop, from
src/daemon_communication/server.rs lines 126-192: read, parse,
is_object check, command extraction (whose as_str().unwrap() panics on
a non-string command value), dispatch in source order, and the await
of the dispatched future.  Handlers that find their required field
missing return None, which the loop silently skips; the handlers'
further field extractions unwrap, so a present field of the wrong
shape panics. -/
def handleConnection (input : ConnInput) (env : HandlerEnv) : Step :=
  match input with
  | .readError _ => ⟨.proceed, true, false, false⟩
  | .parseError _ => ⟨.proceed, true, false, false⟩
  | .parsed j =>
    match j with
    | .obj fields =>
      match jsonLookup fields "command" with
      | none => ⟨.proceed, true, false, false⟩
      | some cmdJson =>
        match cmdJson.asStr with
        | none => ⟨.panicked, false, false, false⟩
        | some cmd =>
          if cmd = "terminate" then ⟨.exitOk, false, true, false⟩
          else if cmd = "log" then
            match jsonLookup fields "message" with
            | none => ⟨.proceed, false, false, false⟩
            | some m =>
              match m.asStr with
              | none => ⟨.panicked, false, false, false⟩
              | some _ => sendStep env.sendResult
          else if cmd = "alert" then
            match jsonLookup fields "message" with
            | none => ⟨.proceed, false, false, false⟩
            | some m =>
              match m.asStr with
              | none => ⟨.panicked, false, false, false⟩
              | some _ => sendStep env.sendResult
          else if cmd = "start" then sendStep env.sendResult
          else if cmd = "end" then sendStep env.sendResult
          else if cmd = "refresh_config" then ⟨.proceed, false, false, true⟩
          else if cmd = "tag" then
            match jsonLookup fields "tags" with
            | none => ⟨.proceed, false, false, false⟩
            | some t =>
              match t.asArray with
              | none => ⟨.panicked, false, false, false⟩
              | some xs =>
                if (xs.all fun x => (Json.asStr x).isSome) then
                  sendStep env.sendResult
                else ⟨.panicked, false, false, false⟩
          else if cmd = "log_short_lived_process" then
            match jsonLookup fields "log" with
            | none => ⟨.proceed, false, false, false⟩
            | some _ =>
              if env.slpParses then
                match env.fillResult with
                | .ok _ => ⟨.proceed, false, false, true⟩
                | .error e => ⟨.exitErr e, false, false, true⟩
              else ⟨.panicked, false, false, false⟩
          else if cmd = "ping" then ⟨.proceed, false, false, false⟩
          else ⟨.proceed, true, false, false⟩
    | _ => ⟨.proceed, true, false, false⟩

/-- A fixed concrete handler environment in which every collaborator
succeeds, used for concrete evaluations. -/
def env0 : HandlerEnv := ⟨.ok (), true, .ok ()⟩

/-- Trace events of the accept loop: accepting connection i, and the
start and completion of connection i's awaited handler future. -/
inductive SEvent where
  | accept (i : Nat)
  | handlerStart (i : Nat)
  | handlerEnd (i : Nat)
deriving DecidableEq, Repr

/-- Events one loop iteration contributes to the server trace. -/
def stepEvents (i : Nat) (st : Step) : List SEvent :=
  .accept i :: (if st.ranHandler then [.handlerStart i, .handlerEnd i] else [])

/-- Trace of run_server over a sequence of incoming connections,
numbered from n: each iteration accepts one connection, handles it to
completion (awaiting any dispatched future inside the loop body), and
only then loops; terminate, a panic, or a propagated handler error
ends the trace. -/
def runServerTrace : Nat → List (ConnInput × HandlerEnv) → List SEvent
  | _, [] => []
  | n, (c, env) :: rest =>
    let st := handleConnection c env
    match st.ctl with
    | .proceed => stepEvents n st ++ runServerTrace (n + 1) rest
    | _ => stepEvents n st

/-- Number of handler futures in flight after the events of p, having
started with k in flight. -/
def inFlightAux : Nat → List SEvent → Nat
  | k, [] => k
  | k, .accept _ :: rest => inFlightAux k rest
  | k, .handlerStart _ :: rest => inFlightAux (k + 1) rest
  | k, .handlerEnd _ :: rest => inFlightAux (k - 1) rest

/-- Number of handler futures in flight after the events of p. -/
def inFlight (p : List SEvent) : Nat := inFlightAux 0 p

/-- Scanner for well-sequenced server traces: with k handlers in
flight, an accept may occur only when k = 0 and a handler start only
when it keeps the in-flight count at most one. -/
def scanOK : Nat → List SEvent → Bool
  | _, [] => true
  | k, .accept _ :: rest => if k = 0 then scanOK k rest else false
  | k, .handlerStart _ :: rest => if k + 1 ≤ 1 then scanOK (k + 1) rest else false
  | k, .handlerEnd _ :: rest => scanOK (k - 1) rest

/-- Shared daemon state as wired in run_server: the TracerClient
behind its mutex, and the separately shared configuration behind its
reader-writer lock. -/
structure DaemonState (α : Type) where
  tracer : TracerState α
  sharedConfig : ConfigFile

/-- Modelled from the spec: TracerClient::reload_config_file is called
by the refresh handler but its body is not among the sources under
src; section 4.3 of the specification says it replaces the live
interval, URL and API-key fields in place, and section 8 pins the
replaced interval to the batch-submission threshold used by the very
next submit_batched_data timing check. -/
def TracerClient.reload_config_file {α : Type} (s : TracerState α)
    (config : ConfigFile) : TracerState α :=
  { s with
    api_key := config.api_key
    service_url := config.service_url
    interval := config.batch_submission_interval_ms }

/-- The refresh_config handler from
src/daemon_communication/server.rs lines 59-76: the configuration is
loaded once (its value is the input loaded), then the TracerClient
copy is reloaded from it and the shared configuration copy is
overwritten by clone_from with the same value. -/
def process_refresh_config_command {α : Type} (st : DaemonState α)
    (loaded : ConfigFile) : DaemonState α :=
  ⟨TracerClient.reload_config_file st.tracer loaded, loaded⟩

/-- Fixed-layout record read from a per-CPU kernel buffer
(src/load_ebpf/mod.rs lines 11-16): a 128-byte name buffer and a
length field.  Bytes are naturals below 256. -/
structure ProcessData where
  comm : List Nat
  len : Nat

/-- Result of decoding one kernel record: either the reader task
panicked or a name string was produced. -/
inductive DecodeOutcome where
  | panicked
  | name (s : String)
deriving DecidableEq, Repr

/-- Whether a byte is a UTF-8 continuation byte. -/
def isCont (b : Nat) : Bool := 0x80 ≤ b && b ≤ 0xBF

/-- UTF-8 decoding of a byte list into scalar values, following the
standard table (RFC 3629), which is what Rust's str::from_utf8
validates: no overlong forms, no surrogates, nothing above 0x10FFFF. -/
def utf8DecodeList : List Nat → Option (List Nat)
  | [] => some []
  | b :: rest =>
    if b < 0x80 then
      (utf8DecodeList rest).map (b :: ·)
    else if 0xC2 ≤ b && b ≤ 0xDF then
      match rest with
      | c :: r =>
        if isCont c then
          (utf8DecodeList r).map (((b - 0xC0) * 0x40 + (c - 0x80)) :: ·)
        else none
      | [] => none
    else if b = 0xE0 then
      match rest with
      | c :: d :: r =>
        if (0xA0 ≤ c && c ≤ 0xBF) && isCont d then
          (utf8DecodeList r).map
            (((b - 0xE0) * 0x1000 + (c - 0x80) * 0x40 + (d - 0x80)) :: ·)
        else none
      | _ => none
    else if (0xE1 ≤ b && b ≤ 0xEC) || b = 0xEE || b = 0xEF then
      match rest with
      | c :: d :: r =>
        if isCont c && isCont d then
          (utf8DecodeList r).map
            (((b - 0xE0) * 0x1000 + (c - 0x80) * 0x40 + (d - 0x80)) :: ·)
        else none
      | _ => none
    else if b = 0xED then
      match rest with
      | c :: d :: r =>
        if (0x80 ≤ c && c ≤ 0x9F) && isCont d then
          (utf8DecodeList r).map
            (((b - 0xE0) * 0x1000 + (c - 0x80) * 0x40 + (d - 0x80)) :: ·)
        else none
      | _ => none
    else if b = 0xF0 then
      match rest with
      | c :: d :: e :: r =>
        if (0x90 ≤ c && c ≤ 0xBF) && isCont d && isCont e then
          (utf8DecodeList r).map
            (((b - 0xF0) * 0x40000 + (c - 0x80) * 0x1000 +
              (d - 0x80) * 0x40 + (e - 0x80)) :: ·)
        else none
      | _ => none
    else if 0xF1 ≤ b && b ≤ 0xF3 then
      match rest with
      | c :: d :: e :: r =>
        if isCont c && isCont d && isCont e then
          (utf8DecodeList r).map
            (((b - 0xF0) * 0x40000 + (c - 0x80) * 0x1000 +
              (d - 0x80) * 0x40 + (e - 0x80)) :: ·)
        else none
      | _ => none
    else if b = 0xF4 then
      match rest with
      | c :: d :: e :: r =>
        if (0x80 ≤ c && c ≤ 0x8F) && isCont d && isCont e then
          (utf8DecodeList r).map
            (((b - 0xF0) * 0x40000 + (c - 0x80) * 0x1000 +
              (d - 0x80) * 0x40 + (e - 0x80)) :: ·)
        else none
      | _ => none
    else none

/-- Rust's std::str::from_utf8 on a byte list: the decoded string when
the bytes are valid UTF-8, none otherwise. -/
def rust_str_from_utf8 (bytes : List Nat) : Option String :=
  (utf8DecodeList bytes).map (fun cps => String.mk (cps.map Char.ofNat))

/-- The reader's use of from_utf8(..).unwrap_or("Invalid UTF-8"). -/
def utf8OrSentinel (bytes : List Nat) : String :=
  match rust_str_from_utf8 bytes with
  | some s => s
  | none => "Invalid UTF-8"

/-- Decode of one record inside the per-CPU reader
(src/load_ebpf/mod.rs lines 72-77): the slice data.comm[..data.len]
is bounds-checked by Rust, so a length beyond the buffer makes the
task panic; within bounds, the name bytes go through from_utf8 with
the sentinel fallback. -/
def decodeRecord (d : ProcessData) : DecodeOutcome :=
  if d.len ≤ d.comm.length then
    .name (utf8OrSentinel (d.comm.take d.len))
  else .panicked

/-- A submit outcome represents at most one send. -/
theorem sentCount_le_one {α : Type} (o : Option (List α)) : sentCount o ≤ 1 := by
  cases o <;> simp [sentCount]

/-- Submitting when not due leaves everything unchanged. -/
theorem submit_not_due {α : Type} (s : TracerState α) (now : Nat)
    (metrics : MetricsResult α) (send : Except String Unit)
    (h : now - s.last_sent < s.interval) :
    submit_batched_data s now metrics send = ⟨.ok (), s, false, none⟩ := by
  simp [submit_batched_data, Nat.not_le_of_lt h]

/-- Whenever a submit call with successful metrics collection hands a
payload to the outbound send, that payload is the pre-call log followed
by the collected metric events. -/
theorem submit_ok_sent {α : Type} (s : TracerState α) (now : Nat)
    (ms : List α) (send : Except String Unit) (r : List α)
    (h : (submit_batched_data s now (.ok ms) send).sent = some r) :
    r = s.logs ++ ms := by
  unfold submit_batched_data at h
  split at h
  · simp at h
    exact h.symm
  · simp at h

/-- Claim C1: for every due call of submit_batched_data whose metrics
collection succeeds, the new last-submission instant is recorded and
the event log is cleared before the outbound send resolves: the
post-state is the same for every send outcome, with an empty log and
last_sent = now; the payload handed to the send is exactly the
pre-call log plus the collected metrics; on a send failure the result
is that error while the log stays cleared and the timestamp stays
updated; and any later flush from the post-state can only ever send
events collected after this one, so this batch is never retried. -/
theorem C1_due_flush_clears_before_send {α : Type} (s : TracerState α)
    (now : Nat) (ms : List α) (send : Except String Unit)
    (hdue : s.interval ≤ now - s.last_sent) :
    (submit_batched_data s now (.ok ms) send).state.logs = [] ∧
    (submit_batched_data s now (.ok ms) send).state.last_sent = now ∧
    (submit_batched_data s now (.ok ms) send).sent = some (s.logs ++ ms) ∧
    (∀ e : String, send = .error e →
      (submit_batched_data s now (.ok ms) send).result = .error e) ∧
    (∀ send' : Except String Unit,
      (submit_batched_data s now (.ok ms) send).state =
      (submit_batched_data s now (.ok ms) send').state) ∧
    (∀ (now₂ : Nat) (ms₂ : List α) (send₂ : Except String Unit) (r : List α),
      (submit_batched_data (submit_batched_data s now (.ok ms) send).state
        now₂ (.ok ms₂) send₂).sent = some r → r = ms₂) := by
  have hlogs : (submit_batched_data s now (.ok ms) send).state.logs = [] := by
    simp [submit_batched_data, if_pos hdue]
  refine ⟨hlogs, ?_, ?_, ?_, ?_, ?_⟩
  · simp [submit_batched_data, if_pos hdue]
  · simp [submit_batched_data, if_pos hdue]
  · intro e he
    simp [submit_batched_data, if_pos hdue, he]
  · intro send'
    simp [submit_batched_data, if_pos hdue]
  · intro now₂ ms₂ send₂ r h
    have := submit_ok_sent _ now₂ ms₂ send₂ r h
    rw [hlogs] at this
    simpa using this

/-- Witness for C1 at a concrete input: a due call with a failing send
clears the log, updates the timestamp, sends the old events, and
returns the send error. -/
theorem C1_witness :
    (submit_batched_data (⟨"k", "u", 0, 5, [1, 2]⟩ : TracerState Nat) 5
      (.ok [3]) (.error "boom")).state.logs = [] ∧
    (submit_batched_data (⟨"k", "u", 0, 5, [1, 2]⟩ : TracerState Nat) 5
      (.ok [3]) (.error "boom")).state.last_sent = 5 ∧
    (submit_batched_data (⟨"k", "u", 0, 5, [1, 2]⟩ : TracerState Nat) 5
      (.ok [3]) (.error "boom")).sent = some [1, 2, 3] ∧
    (submit_batched_data (⟨"k", "u", 0, 5, [1, 2]⟩ : TracerState Nat) 5
      (.ok [3]) (.error "boom")).result = .error "boom" := by
  have h := C1_due_flush_clears_before_send
    (⟨"k", "u", 0, 5, [1, 2]⟩ : TracerState Nat) 5 [3] (.error "boom")
    (by decide)
  exact ⟨h.1, h.2.1, h.2.2.1, h.2.2.2.1 "boom" rfl⟩

/-- Claim C3 is refuted by the code: TracerClient::new initializes the
submission-check interval from process_polling_interval_ms, not from
batch_submission_interval_ms.  With the concrete configuration cfg0
(polling 200 ms, batch submission 5000 ms), a call 300 ms after
construction — well before the 5000 ms batch-submission interval has
elapsed — already attempts a send. -/
theorem C3_submission_gated_by_polling_interval :
    (TracerClient.new Nat cfg0 0).interval =
      cfg0.process_polling_interval_ms ∧
    (TracerClient.new Nat cfg0 0).interval ≠
      cfg0.batch_submission_interval_ms ∧
    (300 : Nat) - 0 < cfg0.batch_submission_interval_ms ∧
    (submit_batched_data (TracerClient.new Nat cfg0 0) 300
      (.ok []) (.ok ())).sent = some [] := by
  refine ⟨rfl, by decide, by decide, rfl⟩

/-- Claim C5: a call of submit_batched_data made before the interval
has elapsed is a no-op that returns Ok, performs no send, invokes no
metrics collection, and leaves the whole state unchanged; and two
calls less than one interval apart perform at most one send in total. -/
theorem C5_not_due_noop :
    (∀ (α : Type) (s : TracerState α) (now : Nat) (metrics : MetricsResult α)
      (send : Except String Unit), now - s.last_sent < s.interval →
      submit_batched_data s now metrics send = ⟨.ok (), s, false, none⟩) ∧
    (∀ (α : Type) (s : TracerState α) (t₁ t₂ : Nat)
      (m₁ m₂ : MetricsResult α) (send₁ send₂ : Except String Unit),
      t₂ - t₁ < s.interval →
      sentCount (submit_batched_data s t₁ m₁ send₁).sent +
      sentCount (submit_batched_data
        (submit_batched_data s t₁ m₁ send₁).state t₂ m₂ send₂).sent ≤ 1) := by
  constructor
  · intro α s now metrics send h
    exact submit_not_due s now metrics send h
  · intro α s t₁ t₂ m₁ m₂ send₁ send₂ hlt
    by_cases hdue : s.interval ≤ t₁ - s.last_sent
    · cases m₁ with
      | ok ms =>
        have h2 : (submit_batched_data s t₁ (.ok ms) send₁).state.last_sent
            = t₁ := by
          simp [submit_batched_data, if_pos hdue]
        have h3 : (submit_batched_data s t₁ (.ok ms) send₁).state.interval
            = s.interval := by
          simp [submit_batched_data, if_pos hdue]
        have hnd : t₂ - (submit_batched_data s t₁ (.ok ms) send₁).state.last_sent
            < (submit_batched_data s t₁ (.ok ms) send₁).state.interval := by
          rw [h2, h3]; exact hlt
        rw [submit_not_due _ t₂ m₂ send₂ hnd]
        simpa [sentCount] using sentCount_le_one
          (submit_batched_data s t₁ (.ok ms) send₁).sent
      | err e p =>
        have h1 : (submit_batched_data s t₁ (.err e p) send₁).sent = none := by
          simp [submit_batched_data, if_pos hdue]
        rw [h1]
        simpa [sentCount] using sentCount_le_one
          (submit_batched_data
            (submit_batched_data s t₁ (.err e p) send₁).state t₂ m₂ send₂).sent
    · rw [submit_not_due s t₁ m₁ send₁ (Nat.lt_of_not_le hdue)]
      simpa [sentCount] using sentCount_le_one
        (submit_batched_data s t₂ m₂ send₂).sent

/-- Witness for C5 at concrete inputs: a not-due call is the identity
no-op, and two calls 3 ms apart under a 5 ms interval send at most
once. -/
theorem C5_witness :
    submit_batched_data (⟨"k", "u", 10, 5, [7]⟩ : TracerState Nat) 12
      (.ok [9]) (.error "x") = ⟨.ok (), ⟨"k", "u", 10, 5, [7]⟩, false, none⟩ ∧
    sentCount (submit_batched_data (⟨"k", "u", 0, 5, []⟩ : TracerState Nat) 6
      (.ok [1]) (.ok ())).sent +
    sentCount (submit_batched_data
      (submit_batched_data (⟨"k", "u", 0, 5, []⟩ : TracerState Nat) 6
        (.ok [1]) (.ok ())).state 9 (.ok [2]) (.ok ())).sent ≤ 1 := by
  exact ⟨C5_not_due_noop.1 Nat ⟨"k", "u", 10, 5, [7]⟩ 12 (.ok [9]) (.error "x")
      (by decide),
    C5_not_due_noop.2 Nat ⟨"k", "u", 0, 5, []⟩ 6 9 (.ok [1]) (.ok [2])
      (.ok ()) (.ok ()) (by decide)⟩

/-- Claim C9: a freshly constructed TracerClient has its
last-submission instant initialized to the construction instant, so a
submit_batched_data call made less than one interval after
construction is a no-op: no send, no metrics collection, state
unchanged, even though no submission has ever occurred. -/
theorem C9_fresh_client_no_early_send (α : Type) (cfg : ConfigFile)
    (t₀ t : Nat) (metrics : MetricsResult α) (send : Except String Unit)
    (h : t - t₀ < cfg.process_polling_interval_ms) :
    (TracerClient.new α cfg t₀).last_sent = t₀ ∧
    submit_batched_data (TracerClient.new α cfg t₀) t metrics send =
      ⟨.ok (), TracerClient.new α cfg t₀, false, none⟩ := by
  refine ⟨rfl, ?_⟩
  have hlt : t - (TracerClient.new α cfg t₀).last_sent <
      (TracerClient.new α cfg t₀).interval := h
  simp [submit_batched_data, Nat.not_le_of_lt hlt]

/-- Witness for C9 at a concrete input: a client built from cfg0 at
instant 100 ignores a submit call at instant 250 (150 ms elapsed,
polling interval 200 ms). -/
theorem C9_witness :
    (TracerClient.new Nat cfg0 100).last_sent = 100 ∧
    submit_batched_data (TracerClient.new Nat cfg0 100) 250
      (.ok [1]) (.ok ()) = ⟨.ok (), TracerClient.new Nat cfg0 100,
        false, none⟩ := by
  exact C9_fresh_client_no_early_send Nat cfg0 100 250 (.ok [1]) (.ok ())
    (by decide)

/-- A string value viewed as a string is itself. -/
theorem Json.asStr_str (s : String) : (Json.str s).asStr = some s := rfl

/-- An array value viewed as an array is its element list. -/
theorem Json.asArray_arr (xs : List Json) : (Json.arr xs).asArray = some xs := rfl

/-- Claim C2 as stated is refuted on the missing-required-field part:
for the recognized command log with the message field missing, the
handler is a no-op and the loop continues, but no diagnostic is
emitted at all (the handler silently returns None and the loop
silently skips it), whereas the claim requires a no-op with a
diagnostic. -/
theorem C2_missing_field_has_no_diagnostic :
    (handleConnection (.parsed (.obj [("command", .str "log")])) env0).ctl
      = .proceed ∧
    (handleConnection (.parsed (.obj [("command", .str "log")])) env0).diag
      = false :=
  ⟨rfl, rfl⟩

/-- Claim C2 amended: every enumerated malformed input — read failure
(for example non-UTF8 bytes), invalid JSON, a non-object top-level
value, an object without a command field, an unrecognized command —
makes the server log a diagnostic, drop the connection, and continue
the accept loop without panicking or terminating; and for every
recognized command whose object is missing its required field the
handler is a silent no-op (no diagnostic) that never panics, so a
subsequent valid ping on a new connection still succeeds. -/
theorem C2_malformed_input_no_crash (env : HandlerEnv) :
    (∀ e, handleConnection (.readError e) env = ⟨.proceed, true, false, false⟩) ∧
    (∀ e, handleConnection (.parseError e) env = ⟨.proceed, true, false, false⟩) ∧
    (∀ j, Json.isObject j = false →
      handleConnection (.parsed j) env = ⟨.proceed, true, false, false⟩) ∧
    (∀ fields, jsonLookup fields "command" = none →
      handleConnection (.parsed (.obj fields)) env = ⟨.proceed, true, false, false⟩) ∧
    (∀ fields c, jsonLookup fields "command" = some (.str c) →
      c ∉ (["log", "alert", "start", "end", "refresh_config", "tag",
            "log_short_lived_process", "terminate", "ping"] : List String) →
      handleConnection (.parsed (.obj fields)) env = ⟨.proceed, true, false, false⟩) ∧
    (∀ fields, jsonLookup fields "command" = some (.str "log") →
      jsonLookup fields "message" = none →
      handleConnection (.parsed (.obj fields)) env = ⟨.proceed, false, false, false⟩) ∧
    (∀ fields, jsonLookup fields "command" = some (.str "alert") →
      jsonLookup fields "message" = none →
      handleConnection (.parsed (.obj fields)) env = ⟨.proceed, false, false, false⟩) ∧
    (∀ fields, jsonLookup fields "command" = some (.str "tag") →
      jsonLookup fields "tags" = none →
      handleConnection (.parsed (.obj fields)) env = ⟨.proceed, false, false, false⟩) ∧
    (∀ fields, jsonLookup fields "command" =
        some (.str "log_short_lived_process") →
      jsonLookup fields "log" = none →
      handleConnection (.parsed (.obj fields)) env = ⟨.proceed, false, false, false⟩) ∧
    handleConnection (.parsed (.obj [("command", .str "ping")])) env =
      ⟨.proceed, false, false, false⟩ := by
  refine ⟨fun e => rfl, fun e => rfl, ?_, ?_, ?_, ?_, ?_, ?_, ?_, rfl⟩
  · intro j h
    cases j <;> simp_all [Json.isObject, handleConnection]
  · intro fields h
    simp [handleConnection, h]
  · intro fields c hlk hnm
    simp only [List.mem_cons, List.mem_singleton, not_or] at hnm
    obtain ⟨h1, h2, h3, h4, h5, h6, h7, h8, h9⟩ := hnm
    simp [handleConnection, hlk, Json.asStr, h1, h2, h3, h4, h5, h6, h7, h8, h9]
  · intro fields hcmd hmsg
    simp [handleConnection, hcmd, hmsg, Json.asStr]
  · intro fields hcmd hmsg
    simp [handleConnection, hcmd, hmsg, Json.asStr]
  · intro fields hcmd htags
    simp [handleConnection, hcmd, htags, Json.asStr]
  · intro fields hcmd hlog
    simp [handleConnection, hcmd, hlog, Json.asStr]

/-- Witness for the amended C2 at concrete inputs: a read error is
logged and skipped, an array top-level value is logged and skipped, an
unknown command is logged and skipped, a tag command without tags is a
silent no-op, and a ping still succeeds, all under the concrete
environment env0. -/
theorem C2_witness :
    handleConnection (.readError "bad utf8") env0 =
      ⟨.proceed, true, false, false⟩ ∧
    handleConnection (.parsed (.arr [])) env0 =
      ⟨.proceed, true, false, false⟩ ∧
    handleConnection (.parsed (.obj [("command", .str "frobnicate")])) env0 =
      ⟨.proceed, true, false, false⟩ ∧
    handleConnection (.parsed (.obj [("command", .str "tag")])) env0 =
      ⟨.proceed, false, false, false⟩ ∧
    handleConnection (.parsed (.obj [("command", .str "ping")])) env0 =
      ⟨.proceed, false, false, false⟩ := by
  have h := C2_malformed_input_no_crash env0
  exact ⟨h.1 "bad utf8", h.2.2.1 (.arr []) rfl,
    h.2.2.2.2.1 [("command", .str "frobnicate")] "frobnicate" rfl (by decide),
    h.2.2.2.2.2.2.2.1 [("command", .str "tag")] rfl rfl,
    h.2.2.2.2.2.2.2.2.2⟩

/-- Claim C4 is refuted: for the start command with a failing outbound
send, the accept loop does not proceed to the next connection — the
error is propagated by the question-mark operator and run_server
returns it (ctl is exitErr, not proceed), and no diagnostic is logged
(diag is false). -/
theorem C4_handler_error_exits_loop :
    handleConnection (.parsed (.obj [("command", .str "start")]))
      ⟨.error "send failed", true, .ok ()⟩ =
      ⟨.exitErr "send failed", false, false, true⟩ :=
  rfl

/-- Claim C4 amended: for every command other than terminate whose
dispatched handler future resolves to an error, the error is neither
swallowed nor logged: the accept loop propagates it via the
question-mark operator, so run_server returns that error and stops
accepting connections. -/
theorem C4_handler_error_propagates (env : HandlerEnv) :
    (∀ e fields m, env.sendResult = .error e →
      jsonLookup fields "command" = some (.str "log") →
      jsonLookup fields "message" = some (.str m) →
      handleConnection (.parsed (.obj fields)) env =
        ⟨.exitErr e, false, false, true⟩) ∧
    (∀ e fields m, env.sendResult = .error e →
      jsonLookup fields "command" = some (.str "alert") →
      jsonLookup fields "message" = some (.str m) →
      handleConnection (.parsed (.obj fields)) env =
        ⟨.exitErr e, false, false, true⟩) ∧
    (∀ e fields, env.sendResult = .error e →
      jsonLookup fields "command" = some (.str "start") →
      handleConnection (.parsed (.obj fields)) env =
        ⟨.exitErr e, false, false, true⟩) ∧
    (∀ e fields, env.sendResult = .error e →
      jsonLookup fields "command" = some (.str "end") →
      handleConnection (.parsed (.obj fields)) env =
        ⟨.exitErr e, false, false, true⟩) ∧
    (∀ e fields ts, env.sendResult = .error e →
      jsonLookup fields "command" = some (.str "tag") →
      jsonLookup fields "tags" = some (.arr ts) →
      (ts.all fun x => (Json.asStr x).isSome) = true →
      handleConnection (.parsed (.obj fields)) env =
        ⟨.exitErr e, false, false, true⟩) ∧
    (∀ e fields v, env.slpParses = true → env.fillResult = .error e →
      jsonLookup fields "command" = some (.str "log_short_lived_process") →
      jsonLookup fields "log" = some v →
      handleConnection (.parsed (.obj fields)) env =
        ⟨.exitErr e, false, false, true⟩) := by
  refine ⟨?_, ?_, ?_, ?_, ?_, ?_⟩
  · intro e fields m hs hcmd hmsg
    simp [handleConnection, hcmd, hmsg, Json.asStr, sendStep, hs]
  · intro e fields m hs hcmd hmsg
    simp [handleConnection, hcmd, hmsg, Json.asStr, sendStep, hs]
  · intro e fields hs hcmd
    simp [handleConnection, hcmd, Json.asStr, sendStep, hs]
  · intro e fields hs hcmd
    simp [handleConnection, hcmd, Json.asStr, sendStep, hs]
  · intro e fields ts hs hcmd htags hall
    simp [handleConnection, hcmd, htags, hall, Json.asStr_str,
      Json.asArray_arr, sendStep, hs]
  · intro e fields v hp hf hcmd hlog
    simp [handleConnection, hcmd, hlog, Json.asStr, hp, hf]

/-- Witness for the amended C4 at a concrete input: an end command
whose send fails makes the loop iteration exit with that error. -/
theorem C4_witness :
    handleConnection (.parsed (.obj [("command", .str "end")]))
      ⟨.error "boom", true, .ok ()⟩ = ⟨.exitErr "boom", false, false, true⟩ := by
  exact (C4_handler_error_propagates ⟨.error "boom", true, .ok ()⟩).2.2.2.1
    "boom" [("command", .str "end")] rfl rfl

/-- Claim C7 as stated is refuted: a record whose length field claims
200 bytes against the 128-byte name buffer is not turned into a decode
error — the bounds-checked slice makes the reader task panic. -/
theorem C7_oversized_length_panics :
    (⟨List.replicate 128 0, 200⟩ : ProcessData).comm.length = 128 ∧
    decodeRecord ⟨List.replicate 128 0, 200⟩ = .panicked := by
  constructor
  · exact List.length_replicate 128 0
  · have hnot : ¬ (200 : Nat) ≤ (List.replicate 128 (0 : Nat)).length := by
      rw [List.length_replicate]
      omega
    simp [decodeRecord, hnot]

/-- Claim C7 amended: the decode never reads past the 128-byte name
buffer — Rust's slice bounds check turns an out-of-range length into a
panic of the reader task rather than an out-of-bounds access — a
record whose length is within the buffer never panics, and a name that
is not valid UTF-8 is replaced by the sentinel string Invalid UTF-8
rather than failing the decode. -/
theorem C7_length_checked_decode (d : ProcessData) (h : d.comm.length = 128) :
    (128 < d.len → decodeRecord d = .panicked) ∧
    (d.len ≤ 128 → decodeRecord d ≠ .panicked) ∧
    (d.len ≤ 128 → rust_str_from_utf8 (d.comm.take d.len) = none →
      decodeRecord d = .name "Invalid UTF-8") := by
  refine ⟨?_, ?_, ?_⟩
  · intro hlt
    have hnot : ¬ d.len ≤ d.comm.length := by rw [h]; exact Nat.not_le_of_lt hlt
    simp [decodeRecord, hnot]
  · intro hle
    have hyes : d.len ≤ d.comm.length := by rw [h]; exact hle
    simp [decodeRecord, hyes]
  · intro hle hnone
    have hyes : d.len ≤ d.comm.length := by rw [h]; exact hle
    simp [decodeRecord, hyes, utf8OrSentinel, hnone]

set_option maxRecDepth 4000 in
/-- Witness for the amended C7 at a concrete record: a one-byte name
0xFF inside a 128-byte buffer does not panic and decodes to the
sentinel string. -/
theorem C7_witness :
    decodeRecord ⟨List.replicate 128 255, 1⟩ ≠ .panicked ∧
    decodeRecord ⟨List.replicate 128 255, 1⟩ = .name "Invalid UTF-8" := by
  have h := C7_length_checked_decode ⟨List.replicate 128 255, 1⟩ (by decide)
  exact ⟨h.2.1 (by decide), h.2.2 (by decide) (by decide)⟩

/-- Claim C8: after the refresh_config handler runs with the freshly
loaded on-disk configuration, both copies agree with it — the shared
configuration equals the loaded value, and the live TracerClient copy
carries its api key, service url, and its batch-submission interval as
the submission threshold. -/
theorem C8_refresh_config_reconciles (α : Type) (st : DaemonState α)
    (loaded : ConfigFile) :
    (process_refresh_config_command st loaded).sharedConfig = loaded ∧
    (process_refresh_config_command st loaded).tracer.api_key =
      loaded.api_key ∧
    (process_refresh_config_command st loaded).tracer.service_url =
      loaded.service_url ∧
    (process_refresh_config_command st loaded).tracer.interval =
      loaded.batch_submission_interval_ms :=
  ⟨rfl, rfl, rfl, rfl⟩

/-- A well-sequenced trace stays well-sequenced when one handled
connection block is prepended, and the trace of the accept loop scans
correctly: accepts happen only with no handler in flight and at most
one handler is ever started concurrently. -/
theorem scanOK_runServerTrace (conns : List (ConnInput × HandlerEnv)) :
    ∀ n : Nat, scanOK 0 (runServerTrace n conns) = true := by
  induction conns with
  | nil => intro n; rfl
  | cons hd tl ih =>
    intro n
    obtain ⟨c, env⟩ := hd
    simp only [runServerTrace]
    cases hctl : (handleConnection c env).ctl <;>
      cases hr : (handleConnection c env).ranHandler <;>
      simp [stepEvents, hr, scanOK, ih]

/-- Prefix invariant extracted from the scanner: along any split of a
well-scanned trace, the number of in-flight handlers is at most one,
and it is zero whenever the next event is an accept. -/
theorem scanOK_prefix (p : List SEvent) : ∀ (q : List SEvent) (k : Nat),
    scanOK k (p ++ q) = true → k ≤ 1 →
    inFlightAux k p ≤ 1 ∧
      (∀ i q', q = SEvent.accept i :: q' → inFlightAux k p = 0) := by
  induction p with
  | nil =>
    intro q k hscan hk
    refine ⟨by simpa [inFlightAux] using hk, ?_⟩
    intro i q' hq
    subst hq
    simp only [List.nil_append, scanOK] at hscan
    by_cases hk0 : k = 0
    · simpa [inFlightAux] using hk0
    · rw [if_neg hk0] at hscan
      exact absurd hscan (by simp)
  | cons e p' ih =>
    intro q k hscan hk
    cases e with
    | accept i =>
      simp only [List.cons_append, scanOK] at hscan
      by_cases hk0 : k = 0
      · rw [if_pos hk0] at hscan
        have h := ih q k hscan hk
        exact ⟨by simpa [inFlightAux] using h.1,
          fun i' q' hq => by simpa [inFlightAux] using h.2 i' q' hq⟩
      · rw [if_neg hk0] at hscan
        exact absurd hscan (by simp)
    | handlerStart i =>
      simp only [List.cons_append, scanOK] at hscan
      by_cases h1 : k + 1 ≤ 1
      · rw [if_pos h1] at hscan
        have h := ih q (k + 1) hscan h1
        exact ⟨by simpa [inFlightAux] using h.1,
          fun i' q' hq => by simpa [inFlightAux] using h.2 i' q' hq⟩
      · rw [if_neg h1] at hscan
        exact absurd hscan (by simp)
    | handlerEnd i =>
      simp only [List.cons_append, scanOK] at hscan
      have hk' : k - 1 ≤ 1 := le_trans (Nat.sub_le k 1) hk
      have h := ih q (k - 1) hscan hk'
      exact ⟨by simpa [inFlightAux] using h.1,
        fun i' q' hq => by simpa [inFlightAux] using h.2 i' q' hq⟩

/-- Claim C10: the accept loop is strictly sequential.  Along every
decomposition of the server trace, at most one handler future is in
flight, and whenever the next event is the accept of a connection the
in-flight count is zero — every handler, slow or failing, is awaited
to completion inside the loop before the next connection (including
one carrying terminate) is accepted. -/
theorem C10_sequential_handlers (n : Nat)
    (conns : List (ConnInput × HandlerEnv)) (p q : List SEvent)
    (h : runServerTrace n conns = p ++ q) :
    inFlight p ≤ 1 ∧
      (∀ i q', q = SEvent.accept i :: q' → inFlight p = 0) := by
  have hscan := scanOK_runServerTrace conns n
  rw [h] at hscan
  exact scanOK_prefix p q 0 hscan (by decide)

/-- Witness for C10 at a concrete run: a start command followed by a
terminate gives the trace accept 0, handler start 0, handler end 0,
accept 1; at the split just before accept 1, no handler is in flight. -/
theorem C10_witness :
    inFlight [SEvent.accept 0, SEvent.handlerStart 0, SEvent.handlerEnd 0]
      ≤ 1 ∧
    inFlight [SEvent.accept 0, SEvent.handlerStart 0, SEvent.handlerEnd 0]
      = 0 := by
  have h := C10_sequential_handlers 0
    [((.parsed (.obj [("command", .str "start")])), env0),
     ((.parsed (.obj [("command", .str "terminate")])), env0)]
    [.accept 0, .handlerStart 0, .handlerEnd 0] [.accept 1] rfl
  exact ⟨h.1, h.2 1 [] rfl⟩
